import Mathlib

/-!
Verification of the QR-platform backend (`server.js`).

The server keeps five in-memory collections (contacts, QR codes, scans,
Loummel signups, wheel results) and exposes CRUD endpoints plus aggregate
queries.  We embed the record types, the mutating operations and the
read-only aggregations as Lean functions over an explicit `Store` state.

Numeric conventions of the embedding:
* JS numbers that stay integral are `Nat`.
* `x.toFixed(2)` (round to two decimals) is modelled exactly on rationals,
  or as an integer number of hundredths (`centi`) where noted.
* A JS division whose denominator is `0` produces `NaN`/`Infinity`; such a
  result is modelled as `none : Option ℚ`.
* `Math.random().toString(36)` yields `"0."` followed by the (shortest)
  base-36 fractional digits of the drawn number, or `"0"` for zero; the
  embedding takes that digit list as the random input.
-/

namespace QRPlatform

/-- A stored contact record (fields relevant to the verified endpoints). -/
structure Contact where
  id : String
  firstname : String
  lastname : String
  email : String
  company : String
  status : String
  deriving DecidableEq, Repr

/-- A stored QR-code record. -/
structure QRCode where
  id : String
  name : String
  scan_count : Nat
  active : Bool
  deriving DecidableEq, Repr

/-- A stored scan record. -/
structure Scan where
  id : String
  qr_code_id : String
  converted : Bool
  deriving DecidableEq, Repr

/-- A stored Loummel signup record. -/
structure Signup where
  id : String
  name : String
  email : String
  phone : String
  promo_code : String
  deriving DecidableEq, Repr

/-- A stored wheel-game result record. -/
structure WheelResult where
  id : String
  name : String
  email : String
  prize : String
  deriving DecidableEq, Repr

/-- The server's global mutable state: the five collections. -/
structure Store where
  contacts : List Contact
  qrCodes : List QRCode
  scans : List Scan
  loummelSignups : List Signup
  wheelResults : List WheelResult
  deriving DecidableEq, Repr

/-- The state at server start: five empty arrays. -/
def Store.init : Store := ⟨[], [], [], [], []⟩

/-- Function `determineStatus` from `server.js`: maps the contact's
`callback_preference` (absent = `none`) to a lead status. -/
def determineStatus (callbackPreference : Option String) : String :=
  if callbackPreference = some "urgent" then "hot"
  else if callbackPreference = some "48h" then "warm"
  else "cold"

/-- The lowercase base-36 digit alphabet used by `Number.toString(36)`. -/
def base36Digits : List Char := "0123456789abcdefghijklmnopqrstuvwxyz".toList

/-- The uppercase alphanumeric alphabet (digits and capital letters). -/
def upperAlnum : List Char := "0123456789ABCDEFGHIJKLMNOPQRSTUVWXYZ".toList

/-- Model of `Math.random().toString(36)` for a draw in `[0,1)`: `"0."` followed by
the fractional base-36 digits, or just `"0"` when the digit list is empty
(the draw was exactly `0`).  Returned as a character list. -/
def jsToString36Frac (ds : List Char) : List Char :=
  if ds = [] then ['0'] else '0' :: '.' :: ds

/-- Function `generatePromoCode` from `server.js`:
`'FOIRE' + Math.random().toString(36).substr(2, 6).toUpperCase()`.
The random draw is supplied as its base-36 fractional digit list `ds`. -/
def generatePromoCode (ds : List Char) : String :=
  "FOIRE" ++ String.mk ((((jsToString36Frac ds).drop 2).take 6).map Char.toUpper)

/-! ### QR-code endpoints -/

/-- Endpoint `POST /api/qrcodes`: pushes a new record with `scan_count: 0` and
`active: true`.  The id is `Date.now().toString()`, supplied here by the
environment as `newId`. -/
def createQRCode (st : Store) (newId name : String) : Store :=
  { st with qrCodes := st.qrCodes ++ [{ id := newId, name := name, scan_count := 0, active := true }] }

/-- Statement `qrCode.scan_count++` applied to the object returned by
`qrCodes.find(q => q.id === qrId)`: increments the first record whose id
matches, leaving the rest untouched. -/
def bumpScanCount : List QRCode → String → List QRCode
  | [], _ => []
  | q :: rest, qrId =>
      if q.id = qrId then { q with scan_count := q.scan_count + 1 } :: rest
      else q :: bumpScanCount rest qrId

/-- Endpoint `POST /api/qrcodes/:id/scan`: 404 (state unchanged) when no QR code has
the requested id; otherwise appends a scan with `converted: false` and
increments the found record's `scan_count`.  `newId` is the scan's
`Date.now()` id. -/
def recordScan (st : Store) (qrId newId : String) : Store :=
  match st.qrCodes.find? (fun q => q.id = qrId) with
  | none => st
  | some _ =>
      { st with
        qrCodes := bumpScanCount st.qrCodes qrId,
        scans := st.scans ++ [{ id := newId, qr_code_id := qrId, converted := false }] }

/-- The mutating QR-code operations, with the environment-chosen
(`Date.now()`) ids as payloads. -/
inductive QROp where
  | create (newId name : String)
  | scan (qrId newId : String)
  deriving DecidableEq, Repr

/-- Apply one QR-code operation to the store. -/
def applyQROp (st : Store) : QROp → Store
  | .create newId name => createQRCode st newId name
  | .scan qrId newId => recordScan st qrId newId

/-- Run a sequence of QR-code operations from a starting state. -/
def runQROps (st : Store) : List QROp → Store
  | [] => st
  | op :: ops => runQROps (applyQROp st op) ops

/-- The ids handed to QR-code creations in an operation sequence. -/
def createdQRIds : List QROp → List String
  | [] => []
  | .create newId _ :: ops => newId :: createdQRIds ops
  | .scan _ _ :: ops => createdQRIds ops

/-- Statistics payload of `GET /api/qrcodes/:id/stats`.  The rate is kept as
an exact count of hundredths of a percent: `.toFixed(2)` prints
`conversion_rate_centi / 100` with two decimals. -/
structure QRStats where
  total_scans : Nat
  conversions : Nat
  conversion_rate_centi : Nat
  deriving DecidableEq, Repr

/-- Round `p / q` (with `q > 0`) to the nearest integer, halves up:
`⌊p/q + 1/2⌋` computed in integer arithmetic. -/
def natRound (p q : Nat) : Nat := (2 * p + q) / (2 * q)

/-- Endpoint `GET /api/qrcodes/:id/stats`: `none` when the id matches no QR code
(404); otherwise the scans with matching `qr_code_id` are counted, the
converted ones among them, and the rate `conversions / total * 100` is
rounded to two decimals (`0` when there are no scans). -/
def statsFor (st : Store) (qrId : String) : Option QRStats :=
  match st.qrCodes.find? (fun q => q.id = qrId) with
  | none => none
  | some _ =>
      let qrScans := st.scans.filter (fun s => s.qr_code_id = qrId)
      let conversions := (qrScans.filter (fun s => s.converted)).length
      some
        { total_scans := qrScans.length
          conversions := conversions
          conversion_rate_centi :=
            if qrScans.length > 0 then natRound (conversions * 10000) qrScans.length else 0 }

/-! ### Contacts listing -/

/-- Does `pat` occur at the very start of `l`? -/
def leadMatch : List Char → List Char → Bool
  | [], _ => true
  | _ :: _, [] => false
  | a :: as, b :: bs => a = b && leadMatch as bs

/-- JS `hay.includes(needle)` on character lists: does `needle` occur as a
contiguous substring of `hay`? -/
def jsIncludes : List Char → List Char → Bool
  | [], needle => needle.isEmpty
  | h :: t, needle => leadMatch needle (h :: t) || jsIncludes t needle

/-- Number of digits in the canonical decimal numeral of `n`, computed
with `n` itself as recursion fuel (ample, since the argument shrinks by a
factor of ten per step). -/
def decimalDigitsAux : Nat → Nat → Nat
  | 0, _ => 1
  | fuel + 1, n => if n < 10 then 1 else decimalDigitsAux fuel (n / 10) + 1

/-- Number of digits in the canonical decimal numeral of `n`
(`decimalDigits 0 = 1`: the numeral `"0"`). -/
def decimalDigits (n : Nat) : Nat := decimalDigitsAux n n

/-- JS `o + l` where `o` holds the decimal *string* of a query parameter
and `l` is a number: string concatenation, later coerced back to a number
by `slice` — the decimal digits of `l` are appended to those of `o`
(`"1" + 5 = "15"`, read back as `15 = 1 * 10 ^ 1 + 5`). -/
def jsConcatNumeral (o l : Nat) : Nat := o * 10 ^ decimalDigits l + l

/-- Endpoint `GET /api/contacts`: optional status equality filter (skipped for the
falsy empty string and for `'all'`), optional case-insensitive substring
search over firstname/lastname/email/company, then
`slice(offset, offset + parseInt(limit))`.  The `offset?` argument is
`none` when the query parameter is absent (Express then applies the
numeric default `0`, and `0 + parseInt(limit)` is numeric addition) and
`some o` when the client supplied the decimal string of `o` (then
`offset + parseInt(limit)` is *string concatenation*, coerced back to a
number by `slice`).  `limit` is the already-parsed `parseInt(limit)`
value (default 50).  Returns the page and the filtered total. -/
def listContacts (st : Store) (status? search? : Option String)
    (limit : Nat) (offset? : Option Nat) : List Contact × Nat :=
  let byStatus :=
    match status? with
    | some s => if s ≠ "" ∧ s ≠ "all" then st.contacts.filter (fun (c : Contact) => c.status = s) else st.contacts
    | none => st.contacts
  let filtered :=
    match search? with
    | some s =>
        if s ≠ "" then
          byStatus.filter (fun (c : Contact) =>
            (jsIncludes c.firstname.toLower.toList s.toLower.toList ||
             jsIncludes c.lastname.toLower.toList s.toLower.toList ||
             jsIncludes c.email.toLower.toList s.toLower.toList ||
             jsIncludes c.company.toLower.toList s.toLower.toList))
        else byStatus
    | none => byStatus
  let start := offset?.getD 0
  let sliceEnd :=
    match offset? with
    | none => limit
    | some o => jsConcatNumeral o limit
  ((filtered.drop start).take (sliceEnd - start), filtered.length)

/-! ### Loummel signup -/

/-- Outcome of `POST /api/loummel/signup` after validation. -/
inductive SignupOutcome where
  | conflict
  | created (s : Signup)
  deriving DecidableEq, Repr

/-- Endpoint `POST /api/loummel/signup`: rejects (HTTP 400, the spec's Conflict
category) when `loummelSignups.find(s => s.email === email)` hits, leaving
the store untouched; otherwise appends a record carrying a generated promo
code.  `newId` is the `Date.now()` id and `promo` the freshly generated
promo code, both environment-supplied. -/
def loummelSignup (st : Store) (newId name email phone promo : String) :
    SignupOutcome × Store :=
  match st.loummelSignups.find? (fun s => s.email = email) with
  | some _ => (.conflict, st)
  | none =>
      let signup : Signup :=
        { id := newId, name := name, email := email, phone := phone, promo_code := promo }
      (.created signup, { st with loummelSignups := st.loummelSignups ++ [signup] })

/-! ### Wheel-game stats -/

/-- The property names a plain `{}` object inherits from
`Object.prototype`: a read of any of these keys is truthy even before any
own property has been written. -/
def objectProtoKeys : List String :=
  ["constructor", "hasOwnProperty", "isPrototypeOf", "propertyIsEnumerable",
   "toLocaleString", "toString", "valueOf",
   "__defineGetter__", "__defineSetter__", "__lookupGetter__",
   "__lookupSetter__", "__proto__"]

/-- A value held by (or read from) the wheel-stats accumulator object:
either a genuine numeric count, or a truthy non-numeric value — an
inherited function/object, or the (nonempty, hence still truthy) string
such a value turns into under `+ 1` concatenation. -/
inductive JSVal where
  | num (n : Nat)
  | junk
  deriving DecidableEq, Repr

/-- Statement `acc[r.prize] = (acc[r.prize] || 0) + 1` of the `reduce` in
`GET /api/wheel/stats`, on a plain-object accumulator whose own
properties are kept as an insertion-ordered association list.  An
existing own numeric count is incremented (a non-numeric own value stays
non-numeric: `string + 1` concatenates).  An absent key that `{}`
inherits from `Object.prototype` reads truthy, so `|| 0` keeps the
inherited value: for `"__proto__"` the assignment then hits the inherited
accessor's setter and is silently swallowed (no own property is ever
created); the other inherited names store a non-numeric value.  Any other
absent key reads `undefined` and the count starts at `1`. -/
def bumpPrize : List (String × JSVal) → String → List (String × JSVal)
  | [], p =>
      if p = "__proto__" then []
      else if p ∈ objectProtoKeys then [(p, JSVal.junk)]
      else [(p, JSVal.num 1)]
  | (k, v) :: rest, p =>
      if k = p then
        (k, match v with
            | JSVal.num n => JSVal.num (n + 1)
            | JSVal.junk => JSVal.junk) :: rest
      else (k, v) :: bumpPrize rest p

/-- The `prizes_distributed` object: fold of `bumpPrize` over the stored
wheel results, starting from the empty object. -/
def prizesDistributed (results : List WheelResult) : List (String × JSVal) :=
  results.foldl (fun acc r => bumpPrize acc r.prize) []

/-- The own property the distribution object carries for key `p`, if
any. -/
def prizeEntry : List (String × JSVal) → String → Option JSVal
  | [], _ => none
  | (k, v) :: rest, p => if k = p then some v else prizeEntry rest p

/-- The numeric count the response reports for prize `p`: the own entry's
value when it is a number, `0` when the key is absent or its entry is not
a number. -/
def reportedCount (obj : List (String × JSVal)) (p : String) : Nat :=
  match prizeEntry obj p with
  | some (JSVal.num n) => n
  | _ => 0

/-- Sum of the numeric counts carried by the distribution object. -/
def distributionTotal : List (String × JSVal) → Nat
  | [] => 0
  | (_, JSVal.num n) :: rest => n + distributionTotal rest
  | (_, JSVal.junk) :: rest => distributionTotal rest

/-- Every own value of the accumulator is a numeric count. -/
def allNum (acc : List (String × JSVal)) : Prop :=
  ∀ e ∈ acc, ∃ n, e.2 = JSVal.num n

/-- Payload of `GET /api/wheel/stats`. -/
structure WheelStats where
  total_plays : Nat
  total_winners : Nat
  prizes_distributed : List (String × JSVal)
  deriving DecidableEq, Repr

/-- Endpoint `GET /api/wheel/stats`: lengths of the results collection (everyone
wins) and the per-prize distribution. -/
def wheelStats (st : Store) : WheelStats :=
  { total_plays := st.wheelResults.length
    total_winners := st.wheelResults.length
    prizes_distributed := prizesDistributed st.wheelResults }

/-! ### Reports -/

/-- Payload of `generateDailyReport` (date field omitted: wall-clock only). -/
structure DailyReport where
  contacts_collected : Nat
  scans_recorded : Nat
  loummel_signups : Nat
  conversion_rate_centi : Nat
  deriving DecidableEq, Repr

/-- Function `generateDailyReport` from `server.js`: totals plus
`signups / contacts * 100` to two decimals, `0` when there are no
contacts. -/
def generateDailyReport (st : Store) : DailyReport :=
  { contacts_collected := st.contacts.length
    scans_recorded := st.scans.length
    loummel_signups := st.loummelSignups.length
    conversion_rate_centi :=
      if st.contacts.length > 0 then
        natRound (st.loummelSignups.length * 10000) st.contacts.length
      else 0 }

/-- Payload of `generateEventReport`. -/
structure EventReport where
  total_contacts : Nat
  total_scans : Nat
  total_loummel : Nat
  hot : Nat
  warm : Nat
  cold : Nat
  top_qr_codes : List (String × Nat)
  deriving DecidableEq, Repr

/-- The comparator `(a, b) => b.scan_count - a.scan_count` passed to
`Array.prototype.sort`: keep `a` before `b` when its count is at least
`b`'s (stable descending order). -/
def scanCountDesc (a b : QRCode) : Prop := b.scan_count ≤ a.scan_count

instance : DecidableRel scanCountDesc :=
  fun a b => inferInstanceAs (Decidable (b.scan_count ≤ a.scan_count))

/-- Function `generateEventReport` from `server.js`.  `qrCodes.sort(...)` sorts the
global array **in place** (ECMAScript `sort` is stable, modelled by a
stable insertion sort), so the function returns the mutated store next to
the report: its `qrCodes` collection is the sorted array. -/
def generateEventReport (st : Store) : EventReport × Store :=
  let sorted := List.insertionSort scanCountDesc st.qrCodes
  ({ total_contacts := st.contacts.length
     total_scans := st.scans.length
     total_loummel := st.loummelSignups.length
     hot := (st.contacts.filter (fun c => c.status = "hot")).length
     warm := (st.contacts.filter (fun c => c.status = "warm")).length
     cold := (st.contacts.filter (fun c => c.status = "cold")).length
     top_qr_codes := (sorted.take 5).map (fun q => (q.name, q.scan_count)) },
   { st with qrCodes := sorted })

/-- Payload of `generateROIReport`.  Field `roi` is `none` when the division's
denominator is `0` (JS produces `NaN` there). -/
structure ROIReport where
  total_contacts : Nat
  estimated_customers : ℤ
  avg_customer_value : ℚ
  estimated_revenue : ℚ
  cost_per_lead : ℚ
  roi : Option ℚ
  deriving DecidableEq, Repr

/-- Function `generateROIReport` from `server.js`: constants `avgCustomerValue =
3000`, `conversionRate = 0.05`, `cost_per_lead = 12.50`;
`estimatedRevenue = contacts.length * conversionRate * avgCustomerValue`;
`estimated_customers = Math.round(contacts.length * conversionRate)`
(`Math.round` is `⌊x + 1/2⌋`, which Mathlib's `round` matches);
`roi = (estimatedRevenue / (contacts.length * 12.50) * 100).toFixed(2)`,
modelled as `none` on a zero denominator and otherwise rounded to two
decimals. -/
def generateROIReport (st : Store) : ROIReport :=
  let n : ℚ := st.contacts.length
  let estimatedRevenue : ℚ := n * (5 / 100) * 3000
  { total_contacts := st.contacts.length
    estimated_customers := round (n * (5 / 100))
    avg_customer_value := 3000
    estimated_revenue := estimatedRevenue
    cost_per_lead := 25 / 2
    roi :=
      if n * (25 / 2) = 0 then none
      else some ((round (estimatedRevenue / (n * (25 / 2)) * 100 * 100) : ℚ) / 100) }

/-! ### Concrete states and operation sequences used as test inputs -/

/-- The spec's concrete scenario: QR code "Booth A" with three recorded
scans, one of them converted. -/
def demoStore : Store where
  contacts := []
  qrCodes := [⟨"q1", "Booth A", 3, true⟩]
  scans := [⟨"s1", "q1", true⟩, ⟨"s2", "q1", false⟩, ⟨"s3", "q1", false⟩]
  loummelSignups := []
  wheelResults := []

/-- Two QR-code creations that draw the same `Date.now()` id, then one
scan of that id. -/
def collidingOps : List QROp := [.create "1" "A", .create "1" "B", .scan "1" "s1"]

/-- Two QR-code creations with distinct ids, then one scan. -/
def distinctOps : List QROp := [.create "1" "A", .create "2" "B", .scan "1" "s1"]

/-- A store whose QR codes are not already in descending `scan_count`
order. -/
def unsortedQRStore : Store where
  contacts := []
  qrCodes := [⟨"1", "A", 0, true⟩, ⟨"2", "B", 1, true⟩]
  scans := []
  loummelSignups := []
  wheelResults := []

/-- A contact record used to populate test stores. -/
def someContact : Contact := ⟨"c1", "Ada", "Lovelace", "ada@x.y", "ACME", "cold"⟩

/-- A second contact record. -/
def otherContact : Contact := ⟨"c2", "Alan", "Turing", "alan@x.y", "ACME", "hot"⟩

/-- A store with exactly one contact. -/
def oneContactStore : Store where
  contacts := [someContact]
  qrCodes := []
  scans := []
  loummelSignups := []
  wheelResults := []

/-- A store with exactly twenty contacts. -/
def twentyContactStore : Store where
  contacts := List.replicate 20 someContact
  qrCodes := []
  scans := []
  loummelSignups := []
  wheelResults := []

/-- A store already holding a Loummel signup for `ada@x.y`. -/
def signupStore : Store where
  contacts := []
  qrCodes := []
  scans := []
  loummelSignups := [⟨"s1", "Ada", "ada@x.y", "0600000000", "FOIREABC123"⟩]
  wheelResults := []

/-- A store with three wheel results over ordinary prize names. -/
def wheelDemoStore : Store where
  contacts := []
  qrCodes := []
  scans := []
  loummelSignups := []
  wheelResults := [⟨"w1", "Ann", "ann@x.y", "mug"⟩, ⟨"w2", "Ben", "ben@x.y", "pen"⟩,
    ⟨"w3", "Cal", "cal@x.y", "mug"⟩]

/-- A store holding one wheel result whose prize is the inherited key
`"__proto__"` — a non-empty trimmed string, so it passes the endpoint's
validation. -/
def protoPrizeStore : Store where
  contacts := []
  qrCodes := []
  scans := []
  loummelSignups := []
  wheelResults := [⟨"w1", "Mallory", "mal@x.y", "__proto__"⟩]

/-- The number of stored scans referencing QR-code id `i`. -/
def scansReferencing (scans : List Scan) (i : String) : Nat :=
  (scans.filter (fun s => s.qr_code_id = i)).length

/-- The denormalised-counter invariant of the spec, strengthened with the
two auxiliary facts the induction needs: QR-code ids are pairwise distinct
and every stored scan references an existing QR-code id. -/
def QRInv (st : Store) : Prop :=
  (st.qrCodes.map QRCode.id).Nodup ∧
  (∀ q ∈ st.qrCodes, q.scan_count = scansReferencing st.scans q.id) ∧
  (∀ s ∈ st.scans, s.qr_code_id ∈ st.qrCodes.map QRCode.id)

/-- The `Date.now()` ids drawn for the QR-code creations of `ops` are
pairwise distinct and unused by the QR codes already in `st`. -/
def FreshCreates (st : Store) (ops : List QROp) : Prop :=
  (createdQRIds ops).Nodup ∧ ∀ i ∈ createdQRIds ops, i ∉ st.qrCodes.map QRCode.id

/-! # Theorems -/

/-- C3 helper: uppercasing any base-36 digit lands in the uppercase
alphanumeric alphabet. -/
theorem base36_toUpper_mem : ∀ c ∈ base36Digits, c.toUpper ∈ upperAlnum := by decide

/-- C3: `determineStatus` is a total function of the callback preference
mapping `'urgent'` to `'hot'`, `'48h'` to `'warm'`, and anything else —
including an absent preference — to `'cold'`. -/
theorem C3_classify_total (p : Option String)
    (hu : p ≠ some "urgent") (hw : p ≠ some "48h") :
    determineStatus (some "urgent") = "hot" ∧
    determineStatus (some "48h") = "warm" ∧
    determineStatus p = "cold" := by
  refine ⟨rfl, rfl, ?_⟩
  unfold determineStatus
  rw [if_neg hu, if_neg hw]

/-- C3 witness: the absent preference classifies as `'cold'`. -/
theorem C3_classify_total_witness :
    determineStatus (some "urgent") = "hot" ∧
    determineStatus (some "48h") = "warm" ∧
    determineStatus none = "cold" :=
  C3_classify_total none (by simp) (by simp)

/-- C7: with zero contacts the ROI percentage is the unguarded division
`estimated_revenue / (0 * 12.50)`, which yields no numeric value (JS
produces `NaN`, modelled as `none`). -/
theorem C7_roi_zero_contacts (st : Store) (h : st.contacts = []) :
    (generateROIReport st).roi = none := by
  simp [generateROIReport, h]

/-- C7 witness: the initial (empty) store has no numeric ROI. -/
theorem C7_roi_zero_contacts_witness : (generateROIReport Store.init).roi = none :=
  C7_roi_zero_contacts Store.init rfl

/-- C9 counterexample: the random draw `0.5` has base-36 expansion `"0.i"`,
so `substr(2, 6)` yields the single character `"i"` and the generated code
is `"FOIREI"` — its suffix after the `"FOIRE"` prefix has length 1, not
the claimed 6. -/
theorem C9_counterexample :
    'i' ∈ base36Digits ∧
    generatePromoCode ['i'] = "FOIREI" ∧
    ((generatePromoCode ['i']).drop 5).length = 1 ∧
    ((generatePromoCode ['i']).drop 5).length ≠ 6 := by decide

/-- C9 (amended): every generated promo code is `"FOIRE"` followed by a
suffix of **at most** 6 uppercase alphanumeric characters; the suffix is
shorter whenever the random draw's base-36 expansion has fewer than six
fractional digits. -/
theorem C9_promo_code_shape (ds : List Char) (h : ∀ c ∈ ds, c ∈ base36Digits) :
    ∃ suffix : List Char,
      generatePromoCode ds = "FOIRE" ++ String.mk suffix ∧
      suffix.length ≤ 6 ∧
      ∀ c ∈ suffix, c ∈ upperAlnum := by
  refine ⟨(((jsToString36Frac ds).drop 2).take 6).map Char.toUpper, rfl, ?_, ?_⟩
  · simp
  · intro c hc
    rw [List.mem_map] at hc
    obtain ⟨c', hc', rfl⟩ := hc
    have hc'' : c' ∈ (jsToString36Frac ds).drop 2 := List.take_subset _ _ hc'
    have hmem : c' ∈ ds := by
      rcases eq_or_ne ds [] with rfl | hne
      · simp [jsToString36Frac] at hc''
      · rw [jsToString36Frac, if_neg hne] at hc''
        simpa using hc''
    exact base36_toUpper_mem c' (h c' hmem)

/-- C9 witness: a six-digit draw `"0.a1b2c3"` produces `"FOIRE" ++
"A1B2C3"`, a suffix of length 6 within the uppercase alphanumeric
alphabet. -/
theorem C9_promo_code_shape_witness :
    ∃ suffix : List Char,
      generatePromoCode ['a', '1', 'b', '2', 'c', '3'] = "FOIRE" ++ String.mk suffix ∧
      suffix.length ≤ 6 ∧
      ∀ c ∈ suffix, c ∈ upperAlnum :=
  C9_promo_code_shape ['a', '1', 'b', '2', 'c', '3'] (by decide)

/-- C10 helper: bumping a key that is not inherited from
`Object.prototype` keeps every own value of the accumulator numeric. -/
theorem allNum_bumpPrize {acc : List (String × JSVal)} {p : String}
    (hp : p ∉ objectProtoKeys) (h : allNum acc) : allNum (bumpPrize acc p) := by
  have hproto : ¬ p = "__proto__" := fun hh => hp (by rw [hh]; decide)
  induction acc with
  | nil =>
      intro e he
      simp only [bumpPrize, if_neg hproto, if_neg hp] at he
      simp only [List.mem_singleton] at he
      exact ⟨1, by rw [he]⟩
  | cons e0 rest ih =>
      obtain ⟨k, v⟩ := e0
      intro e he
      by_cases hk : k = p
      · simp only [bumpPrize, if_pos hk] at he
        rcases List.mem_cons.mp he with rfl | he'
        · obtain ⟨n, hn⟩ := h (k, v) (List.mem_cons_self _ _)
          simp only at hn
          subst hn
          exact ⟨n + 1, rfl⟩
        · exact h e (List.mem_cons_of_mem _ he')
      · simp only [bumpPrize, if_neg hk] at he
        rcases List.mem_cons.mp he with rfl | he'
        · exact h (k, v) (List.mem_cons_self _ _)
        · exact ih (fun e' he'' => h e' (List.mem_cons_of_mem _ he'')) e he'

/-- C10 helper: over a numeric accumulator, bumping a non-inherited key
raises exactly that key's reported count by one. -/
theorem reportedCount_bumpPrize {acc : List (String × JSVal)} {p : String} (q : String)
    (hp : p ∉ objectProtoKeys) (h : allNum acc) :
    reportedCount (bumpPrize acc p) q = reportedCount acc q + (if q = p then 1 else 0) := by
  have hproto : ¬ p = "__proto__" := fun hh => hp (by rw [hh]; decide)
  induction acc with
  | nil =>
      by_cases hq : q = p
      · subst hq; simp [bumpPrize, hproto, hp, reportedCount, prizeEntry]
      · simp [bumpPrize, hproto, hp, reportedCount, prizeEntry, hq, Ne.symm hq]
  | cons e0 rest ih =>
      obtain ⟨k, v⟩ := e0
      by_cases hk : k = p
      · obtain ⟨n, hn⟩ := h (k, v) (List.mem_cons_self _ _)
        simp only at hn
        subst hn hk
        by_cases hq : q = k
        · subst hq; simp [bumpPrize, reportedCount, prizeEntry]
        · simp [bumpPrize, reportedCount, prizeEntry, hq, Ne.symm hq]
      · have ih' := ih (fun e' he'' => h e' (List.mem_cons_of_mem _ he''))
        by_cases hq : k = q
        · subst hq
          simp [bumpPrize, reportedCount, prizeEntry, hk, Ne.symm hk]
        · have l1 : reportedCount ((k, v) :: bumpPrize rest p) q =
              reportedCount (bumpPrize rest p) q := by
            simp [reportedCount, prizeEntry, hq]
          have l2 : reportedCount ((k, v) :: rest) q = reportedCount rest q := by
            simp [reportedCount, prizeEntry, hq]
          simp only [bumpPrize, if_neg hk]
          rw [l1, l2]
          exact ih'

/-- C10 helper: over a numeric accumulator, bumping a non-inherited key
adds one to the distribution's numeric total. -/
theorem distributionTotal_bumpPrize {acc : List (String × JSVal)} {p : String}
    (hp : p ∉ objectProtoKeys) (h : allNum acc) :
    distributionTotal (bumpPrize acc p) = distributionTotal acc + 1 := by
  have hproto : ¬ p = "__proto__" := fun hh => hp (by rw [hh]; decide)
  induction acc with
  | nil => simp [bumpPrize, hproto, hp, distributionTotal]
  | cons e0 rest ih =>
      obtain ⟨k, v⟩ := e0
      obtain ⟨n, hn⟩ := h (k, v) (List.mem_cons_self _ _)
      simp only at hn
      subst hn
      have ih' := ih (fun e' he'' => h e' (List.mem_cons_of_mem _ he''))
      by_cases hk : k = p
      · simp [bumpPrize, hk, distributionTotal]
        omega
      · simp [bumpPrize, hk, distributionTotal, ih']
        omega

/-- C10 helper: folding the reduce step over wheel results whose prizes
avoid the inherited names counts each prize's occurrences on top of the
accumulator. -/
theorem reportedCount_foldl (rs : List WheelResult) (acc : List (String × JSVal)) (q : String)
    (hrs : ∀ r ∈ rs, r.prize ∉ objectProtoKeys) (h : allNum acc) :
    reportedCount (rs.foldl (fun a r => bumpPrize a r.prize) acc) q =
      reportedCount acc q + rs.countP (fun r => r.prize = q) := by
  induction rs generalizing acc with
  | nil => simp
  | cons r rs ih =>
      rw [List.foldl_cons,
        ih _ (fun r' hr' => hrs r' (List.mem_cons_of_mem _ hr'))
          (allNum_bumpPrize (hrs r (List.mem_cons_self _ _)) h),
        reportedCount_bumpPrize q (hrs r (List.mem_cons_self _ _)) h, List.countP_cons]
      by_cases hq : r.prize = q
      · subst hq; simp; omega
      · simp [hq, Ne.symm hq]

/-- C10 helper: folding the reduce step over wheel results whose prizes
avoid the inherited names adds their number to the numeric total. -/
theorem distributionTotal_foldl (rs : List WheelResult) (acc : List (String × JSVal))
    (hrs : ∀ r ∈ rs, r.prize ∉ objectProtoKeys) (h : allNum acc) :
    distributionTotal (rs.foldl (fun a r => bumpPrize a r.prize) acc) =
      distributionTotal acc + rs.length := by
  induction rs generalizing acc with
  | nil => simp
  | cons r rs ih =>
      rw [List.foldl_cons,
        ih _ (fun r' hr' => hrs r' (List.mem_cons_of_mem _ hr'))
          (allNum_bumpPrize (hrs r (List.mem_cons_self _ _)) h),
        distributionTotal_bumpPrize (hrs r (List.mem_cons_self _ _)) h, List.length_cons]
      omega

/-- C10 counterexample: one wheel result with the valid prize name
`"__proto__"` (non-empty, so it passes validation).  The read
`acc["__proto__"] || 0` keeps the truthy inherited prototype object and
the assignment is swallowed by the inherited accessor, so the
distribution object stays empty: the count reported for that prize is 0
although one stored result carries it, and the counts sum to 0 while
`total_plays` is 1. -/
theorem C10_counterexample :
    (wheelStats protoPrizeStore).total_plays = 1 ∧
    (wheelStats protoPrizeStore).prizes_distributed = [] ∧
    reportedCount (wheelStats protoPrizeStore).prizes_distributed "__proto__" = 0 ∧
    protoPrizeStore.wheelResults.countP (fun r => r.prize = "__proto__") = 1 ∧
    distributionTotal (wheelStats protoPrizeStore).prizes_distributed ≠
      (wheelStats protoPrizeStore).total_plays := by
  refine ⟨rfl, by decide, by decide, by decide, by decide⟩

/-- C10 (amended): for stores in which no prize name is a property name
inherited from `Object.prototype`, the wheel stats report `total_plays`
equal to the number of stored wheel results, `total_winners` equal to
`total_plays`, a distribution whose reported count at every prize is the
number of stored results with that prize, and whose counts sum to
`total_plays`.  For a prize equal to such an inherited name the plain
`{}` accumulator misbehaves: `"__proto__"` updates are silently swallowed
and the other inherited names produce non-numeric entries. -/
theorem C10_wheel_stats (st : Store)
    (h : ∀ r ∈ st.wheelResults, r.prize ∉ objectProtoKeys) :
    (wheelStats st).total_plays = st.wheelResults.length ∧
    (wheelStats st).total_winners = (wheelStats st).total_plays ∧
    (∀ p : String,
      reportedCount (wheelStats st).prizes_distributed p =
        st.wheelResults.countP (fun r => r.prize = p)) ∧
    distributionTotal (wheelStats st).prizes_distributed = (wheelStats st).total_plays := by
  have hnil : allNum [] := fun e he => absurd he (List.not_mem_nil e)
  refine ⟨rfl, rfl, ?_, ?_⟩
  · intro p
    have := reportedCount_foldl st.wheelResults [] p h hnil
    simpa [wheelStats, prizesDistributed, reportedCount, prizeEntry] using this
  · have := distributionTotal_foldl st.wheelResults [] h hnil
    simpa [wheelStats, prizesDistributed, distributionTotal] using this

/-- C10 witness: three results with ordinary prizes (`mug`, `pen`, `mug`)
report count 2 for `mug` and a numeric total equal to the three plays. -/
theorem C10_wheel_stats_witness :
    reportedCount (wheelStats wheelDemoStore).prizes_distributed "mug" =
      wheelDemoStore.wheelResults.countP (fun r => r.prize = "mug") ∧
    distributionTotal (wheelStats wheelDemoStore).prizes_distributed =
      (wheelStats wheelDemoStore).total_plays :=
  ⟨(C10_wheel_stats wheelDemoStore (by decide)).2.2.1 "mug",
   (C10_wheel_stats wheelDemoStore (by decide)).2.2.2⟩

/-- C4: the pagination is broken for every client-supplied nonzero
offset.  `req.query.offset` is a string, so `offset + parseInt(limit)` in
`slice(offset, offset + parseInt(limit))` concatenates instead of adding:
with 20 stored contacts, `limit = 5` and `offset = "1"` the slice end is
`"1" + 5 = "15"`, so 14 items come back where the claim promises
`min(5, max(0, 20 - 1)) = 5`.  With the offset absent (numeric default
`0`) the page length is the limit, as intended. -/
theorem C4_pagination_string_offset :
    ((listContacts twentyContactStore none none 5 (some 1)).1).length = 14 ∧
    min 5 (twentyContactStore.contacts.length - 1) = 5 ∧
    ((listContacts twentyContactStore none none 5 (some 1)).1).length ≠
      min 5 (twentyContactStore.contacts.length - 1) ∧
    ((listContacts twentyContactStore none none 5 none).1).length = 5 := by
  refine ⟨by decide, by decide, by decide, by decide⟩

/-- C8: a Loummel signup whose email is already stored is rejected with the
conflict outcome, the store is returned unchanged, and in particular the
signup count does not move. -/
theorem C8_duplicate_signup (st : Store) (newId name email phone promo : String)
    (h : ∃ s ∈ st.loummelSignups, s.email = email) :
    loummelSignup st newId name email phone promo = (.conflict, st) ∧
    (loummelSignup st newId name email phone promo).2.loummelSignups.length =
      st.loummelSignups.length := by
  obtain ⟨s, hs, he⟩ := h
  cases hfind : st.loummelSignups.find? (fun s => s.email = email) with
  | none =>
      rw [List.find?_eq_none] at hfind
      exact absurd (by simpa using he) (hfind s hs)
  | some s0 => exact ⟨by simp [loummelSignup, hfind], by simp [loummelSignup, hfind]⟩

/-- C8 witness: signing up `ada@x.y` a second time conflicts and leaves
the one-signup store unchanged. -/
theorem C8_duplicate_signup_witness :
    loummelSignup signupStore "s2" "Eve" "ada@x.y" "0700000000" "FOIREXYZ12" =
      (.conflict, signupStore) ∧
    (loummelSignup signupStore "s2" "Eve" "ada@x.y" "0700000000" "FOIREXYZ12").2.loummelSignups.length =
      signupStore.loummelSignups.length :=
  C8_duplicate_signup signupStore "s2" "Eve" "ada@x.y" "0700000000" "FOIREXYZ12"
    ⟨⟨"s1", "Ada", "ada@x.y", "0600000000", "FOIREABC123"⟩, by decide, rfl⟩

/-- The integer-arithmetic rounding `natRound` agrees with rounding the
exact rational quotient to the nearest integer. -/
theorem natRound_cast_eq_round (p q : Nat) (hq : 0 < q) :
    (natRound p q : ℤ) = round ((p : ℚ) / q) := by
  have hq0 : (0 : ℚ) < (q : ℚ) := by exact_mod_cast hq
  have key : (p : ℚ) / q + 1 / 2 = ((2 * p + q : ℕ) : ℚ) / ((2 * q : ℕ) : ℚ) := by
    push_cast
    field_simp
    ring
  have hnn : (0 : ℚ) ≤ ((2 * p + q : ℕ) : ℚ) / ((2 * q : ℕ) : ℚ) := by positivity
  rw [round_eq, key, ← Int.natCast_floor_eq_floor hnn, Nat.floor_div_eq_div]
  rfl

/-- C1: for a QR-code id present in the store, the stats endpoint returns
`total_scans` counting the scans referencing that id, `conversions`
counting the converted ones among them, and a conversion rate (in
hundredths of a percent) that is `conversions / total_scans * 100` rounded
to two decimal places, with rate `0` when there are no scans. -/
theorem C1_stats_for (st : Store) (qrId : String)
    (h : (st.qrCodes.find? (fun q => q.id = qrId)).isSome) :
    ∃ stats : QRStats,
      statsFor st qrId = some stats ∧
      stats.total_scans = st.scans.countP (fun s => s.qr_code_id = qrId) ∧
      stats.conversions = st.scans.countP (fun s => s.qr_code_id = qrId ∧ s.converted = true) ∧
      (stats.total_scans = 0 → stats.conversion_rate_centi = 0) ∧
      (0 < stats.total_scans →
        (stats.conversion_rate_centi : ℤ) =
          round ((stats.conversions : ℚ) / (stats.total_scans : ℚ) * 100 * 100)) := by
  obtain ⟨qr, hfind⟩ := Option.isSome_iff_exists.mp h
  refine ⟨⟨(st.scans.filter (fun s => s.qr_code_id = qrId)).length,
      ((st.scans.filter (fun s => s.qr_code_id = qrId)).filter (fun s => s.converted)).length,
      if (st.scans.filter (fun s => s.qr_code_id = qrId)).length > 0 then
        natRound (((st.scans.filter (fun s => s.qr_code_id = qrId)).filter
          (fun s => s.converted)).length * 10000)
          (st.scans.filter (fun s => s.qr_code_id = qrId)).length
      else 0⟩, ?_, ?_, ?_, ?_, ?_⟩
  · rw [statsFor, hfind]
  · dsimp only
    simp [List.countP_eq_length_filter]
  · dsimp only
    rw [List.filter_filter, List.countP_eq_length_filter]
    congr 1
    apply List.filter_congr
    intro s _
    by_cases h1 : s.qr_code_id = qrId <;> by_cases h2 : s.converted = true <;>
      simp [h1, h2]
  · intro h0
    dsimp only at h0 ⊢
    rw [h0]
    simp
  · intro hpos
    dsimp only at hpos ⊢
    rw [if_pos hpos, natRound_cast_eq_round _ _ hpos]
    congr 1
    push_cast
    ring

/-- C1 witness: the spec's concrete scenario (one QR code, three scans,
one converted) yields `total_scans = 3`, `conversions = 1` and a rate of
`3333` hundredths of a percent, i.e. `33.33`. -/
theorem C1_stats_for_witness :
    statsFor demoStore "q1" = some ⟨3, 1, 3333⟩ ∧
    (∃ stats : QRStats,
      statsFor demoStore "q1" = some stats ∧
      stats.total_scans = demoStore.scans.countP (fun s => s.qr_code_id = "q1") ∧
      stats.conversions =
        demoStore.scans.countP (fun s => s.qr_code_id = "q1" ∧ s.converted = true) ∧
      (stats.total_scans = 0 → stats.conversion_rate_centi = 0) ∧
      (0 < stats.total_scans →
        (stats.conversion_rate_centi : ℤ) =
          round ((stats.conversions : ℚ) / (stats.total_scans : ℚ) * 100 * 100))) :=
  ⟨by decide, C1_stats_for demoStore "q1" (by decide)⟩

/-- C6 counterexample: with exactly one contact the report carries
`estimated_customers = round(1 × 0.05) = 0` yet `estimated_revenue =
1 × 0.05 × 3000 = 150 ≠ 0 × 3000`: revenue is computed from the unrounded
product, not from the rounded customer count. -/
theorem C6_counterexample :
    (generateROIReport oneContactStore).estimated_customers = 0 ∧
    (generateROIReport oneContactStore).estimated_revenue = 150 ∧
    (generateROIReport oneContactStore).avg_customer_value = 3000 ∧
    (generateROIReport oneContactStore).estimated_revenue ≠
      ((generateROIReport oneContactStore).estimated_customers : ℚ) *
        (generateROIReport oneContactStore).avg_customer_value := by
  have hc : (generateROIReport oneContactStore).estimated_customers = 0 := by
    show round (((oneContactStore.contacts.length : ℕ) : ℚ) * (5 / 100)) = 0
    norm_num [oneContactStore, round_eq]
  have hr : (generateROIReport oneContactStore).estimated_revenue = 150 := by
    show ((oneContactStore.contacts.length : ℕ) : ℚ) * (5 / 100) * 3000 = 150
    norm_num [oneContactStore]
  refine ⟨hc, hr, rfl, ?_⟩
  rw [hc, hr]
  norm_num

/-- C6 (amended): `estimated_customers` is `contacts × 0.05` rounded to the
nearest integer, but `estimated_revenue` is the **unrounded** product
`contacts × 0.05 × 3000 = 150 × contacts`; it equals
`estimated_customers × avg_customer_value` only when `contacts × 0.05` is
already an integer, e.g. when 20 divides the contact count. -/
theorem C6_roi_estimates (st : Store) :
    (generateROIReport st).estimated_customers = round ((st.contacts.length : ℚ) * (5 / 100)) ∧
    (generateROIReport st).estimated_revenue = 150 * (st.contacts.length : ℚ) ∧
    ((20 : ℕ) ∣ st.contacts.length →
      (generateROIReport st).estimated_revenue =
        ((generateROIReport st).estimated_customers : ℚ) *
          (generateROIReport st).avg_customer_value) := by
  refine ⟨rfl, ?_, ?_⟩
  · show (st.contacts.length : ℚ) * (5 / 100) * 3000 = 150 * (st.contacts.length : ℚ)
    ring
  · rintro ⟨k, hk⟩
    show (st.contacts.length : ℚ) * (5 / 100) * 3000 =
      (round ((st.contacts.length : ℚ) * (5 / 100)) : ℚ) * 3000
    rw [hk]
    push_cast
    rw [show (20 * (k : ℚ)) * (5 / 100) = (k : ℚ) by ring, round_natCast]
    push_cast
    ring

/-- C6 witness: with twenty contacts the product `20 × 0.05 = 1` is
integral, so revenue `3000` equals `estimated_customers × 3000` there. -/
theorem C6_roi_estimates_witness :
    (generateROIReport twentyContactStore).estimated_revenue =
      ((generateROIReport twentyContactStore).estimated_customers : ℚ) *
        (generateROIReport twentyContactStore).avg_customer_value :=
  (C6_roi_estimates twentyContactStore).2.2 (by simp [twentyContactStore])

/-- C5: generating the event report sorts the global `qrCodes` array in
place (`Array.prototype.sort` mutates).  On a store whose QR codes are not
already in descending `scan_count` order the collection comes back
permuted, while the other four collections are untouched — contradicting
the spec's "pure projection over a snapshot". -/
theorem C5_event_report_sorts_in_place :
    (generateEventReport unsortedQRStore).2.qrCodes =
      [⟨"2", "B", 1, true⟩, ⟨"1", "A", 0, true⟩] ∧
    (generateEventReport unsortedQRStore).2.qrCodes ≠ unsortedQRStore.qrCodes ∧
    (generateEventReport unsortedQRStore).2.contacts = unsortedQRStore.contacts ∧
    (generateEventReport unsortedQRStore).2.scans = unsortedQRStore.scans ∧
    (generateEventReport unsortedQRStore).2.loummelSignups =
      unsortedQRStore.loummelSignups ∧
    (generateEventReport unsortedQRStore).2.wheelResults =
      unsortedQRStore.wheelResults := by
  refine ⟨by decide, by decide, rfl, rfl, rfl, rfl⟩

/-- C2 helper: incrementing the first match leaves the id sequence of the
QR-code collection unchanged. -/
theorem bumpScanCount_map_id (l : List QRCode) (i : String) :
    (bumpScanCount l i).map QRCode.id = l.map QRCode.id := by
  induction l with
  | nil => rfl
  | cons q rest ih => by_cases h : q.id = i <;> simp [bumpScanCount, h, ih]

/-- C2 helper: when the stored ids are distinct, bumping id `i` adds one to
the count of the (sole) record with that id and leaves all others as
described by `f`. -/
theorem bumpScanCount_counts {l : List QRCode} {i : String} {f : String → Nat}
    (hnd : (l.map QRCode.id).Nodup)
    (hl : ∀ q ∈ l, q.scan_count = f q.id) :
    ∀ q ∈ bumpScanCount l i, q.scan_count = f q.id + (if q.id = i then 1 else 0) := by
  induction l with
  | nil => intro q hq; simp [bumpScanCount] at hq
  | cons q0 rest ih =>
      rw [List.map_cons, List.nodup_cons] at hnd
      obtain ⟨hnotin, hndrest⟩ := hnd
      intro q hq
      by_cases h0 : q0.id = i
      · rw [bumpScanCount, if_pos h0] at hq
        rcases List.mem_cons.mp hq with rfl | hq'
        · have hcnt := hl q0 (List.mem_cons_self _ _)
          simp [h0, hcnt]
        · have hqm : q.id ∈ rest.map QRCode.id := List.mem_map_of_mem _ hq'
          have hne : q.id ≠ i := by
            intro hqi
            exact hnotin (by rw [h0, ← hqi]; exact hqm)
          rw [if_neg hne]
          simp [hl q (List.mem_cons_of_mem _ hq')]
      · rw [bumpScanCount, if_neg h0] at hq
        rcases List.mem_cons.mp hq with rfl | hq'
        · rw [if_neg h0]
          simp [hl q (List.mem_cons_self _ _)]
        · exact ih hndrest (fun q' hq' => hl q' (List.mem_cons_of_mem _ hq')) q hq'

/-- C2 helper: recording a scan never changes the id sequence of the
QR-code collection. -/
theorem recordScan_map_id (st : Store) (qrId sid : String) :
    (recordScan st qrId sid).qrCodes.map QRCode.id = st.qrCodes.map QRCode.id := by
  rw [recordScan]
  cases hfind : st.qrCodes.find? (fun q => q.id = qrId)
  · rfl
  · exact bumpScanCount_map_id _ _

/-- C2 helper: creating a QR code with a fresh id preserves the
invariant. -/
theorem QRInv_create {st : Store} {i name : String}
    (hinv : QRInv st) (hfresh : i ∉ st.qrCodes.map QRCode.id) :
    QRInv (createQRCode st i name) := by
  obtain ⟨hnd, hcnt, href⟩ := hinv
  refine ⟨?_, ?_, ?_⟩
  · simp only [createQRCode, List.map_append, List.map_cons, List.map_nil]
    simp [List.nodup_append, hnd, hfresh]
  · intro q hq
    rcases List.mem_append.mp hq with hq' | hq'
    · exact hcnt q hq'
    · have hq'' : q = ⟨i, name, 0, true⟩ := by simpa using hq'
      subst hq''
      have hnone : ∀ s ∈ st.scans, ¬ (s.qr_code_id = i) :=
        fun s hs hsi => hfresh (hsi ▸ href s hs)
      show (0 : Nat) = scansReferencing st.scans i
      rw [scansReferencing]
      rw [List.filter_eq_nil_iff.mpr (by simpa using hnone)]
      rfl
  · intro s hs
    show s.qr_code_id ∈ (st.qrCodes ++ [(⟨i, name, 0, true⟩ : QRCode)]).map QRCode.id
    rw [List.map_append]
    exact List.mem_append_left _ (href s hs)

/-- C2 helper: recording a scan preserves the invariant. -/
theorem QRInv_scan {st : Store} {qrId sid : String} (hinv : QRInv st) :
    QRInv (recordScan st qrId sid) := by
  obtain ⟨hnd, hcnt, href⟩ := hinv
  rw [recordScan]
  cases hfind : st.qrCodes.find? (fun q => q.id = qrId) with
  | none => exact ⟨hnd, hcnt, href⟩
  | some q0 =>
      have hq0mem : q0 ∈ st.qrCodes := List.mem_of_find?_eq_some hfind
      have hq0id : q0.id = qrId := by simpa using List.find?_some hfind
      refine ⟨?_, ?_, ?_⟩
      · show ((bumpScanCount st.qrCodes qrId).map QRCode.id).Nodup
        rw [bumpScanCount_map_id]
        exact hnd
      · intro q hq
        have hbump := bumpScanCount_counts hnd hcnt q hq
        show q.scan_count =
          scansReferencing (st.scans ++ [{ id := sid, qr_code_id := qrId, converted := false }]) q.id
        rw [hbump]
        simp only [scansReferencing]
        rw [List.filter_append, List.length_append]
        congr 1
        by_cases h : q.id = qrId
        · simp [h]
        · simp [h, Ne.symm h]
      · intro s hs
        show s.qr_code_id ∈ (bumpScanCount st.qrCodes qrId).map QRCode.id
        rw [bumpScanCount_map_id]
        rcases List.mem_append.mp hs with hs' | hs'
        · exact href s hs'
        · have : s = ⟨sid, qrId, false⟩ := by simpa using hs'
          subst this
          show qrId ∈ st.qrCodes.map QRCode.id
          exact hq0id ▸ List.mem_map_of_mem QRCode.id hq0mem

/-- C2 helper: running any sequence of QR-code operations whose creation
ids are fresh and pairwise distinct preserves the invariant. -/
theorem runQROps_inv (ops : List QROp) (st : Store)
    (hinv : QRInv st) (hfresh : FreshCreates st ops) : QRInv (runQROps st ops) := by
  induction ops generalizing st with
  | nil => exact hinv
  | cons op ops ih =>
      cases op with
      | create i name =>
          have hcons : (i :: createdQRIds ops).Nodup := by simpa [createdQRIds] using hfresh.1
          obtain ⟨hinotin, hndrest⟩ := List.nodup_cons.mp hcons
          have hifresh : i ∉ st.qrCodes.map QRCode.id :=
            hfresh.2 i (by simp [createdQRIds])
          refine ih (createQRCode st i name) (QRInv_create hinv hifresh) ⟨hndrest, ?_⟩
          intro j hj
          have hji : j ≠ i := fun hji => hinotin (hji ▸ hj)
          have hold : j ∉ st.qrCodes.map QRCode.id :=
            hfresh.2 j (by simp [createdQRIds, hj])
          simp [createQRCode, hold, hji]
      | scan qrId sid =>
          refine ih (recordScan st qrId sid) (QRInv_scan hinv) ⟨?_, ?_⟩
          · simpa [createdQRIds] using hfresh.1
          · intro j hj
            rw [recordScan_map_id]
            exact hfresh.2 j (by simpa [createdQRIds] using hj)

/-- C2 counterexample: two QR-code creations that draw the same
`Date.now()` id followed by one scan leave a reachable state containing
the QR code `{id:"1", name:"B", scan_count:0}` while one stored scan
references id `"1"`: its counter does not equal the number of scans
referencing its id. -/
theorem C2_counterexample :
    ((runQROps Store.init collidingOps).qrCodes.map fun q => (q.id, q.scan_count)) =
      [("1", 1), ("1", 0)] ∧
    (⟨"1", "B", 0, true⟩ : QRCode) ∈ (runQROps Store.init collidingOps).qrCodes ∧
    ((runQROps Store.init collidingOps).scans.filter
      (fun s => s.qr_code_id = "1")).length = 1 := by
  refine ⟨by decide, by decide, by decide⟩

/-- C2 (amended): in every state reachable from the initial store by QR
creations and scan recordings in which the creation ids are pairwise
distinct (i.e. the coarse `Date.now()` id generator never collides), every
QR code's `scan_count` equals the number of stored scans referencing its
id. -/
theorem C2_scan_count_invariant (ops : List QROp)
    (hids : (createdQRIds ops).Nodup) :
    ∀ q ∈ (runQROps Store.init ops).qrCodes,
      q.scan_count =
        ((runQROps Store.init ops).scans.filter (fun s => s.qr_code_id = q.id)).length := by
  have hinv : QRInv (runQROps Store.init ops) := by
    apply runQROps_inv
    · exact ⟨by simp [Store.init], by simp [Store.init], by simp [Store.init]⟩
    · exact ⟨hids, by simp [Store.init]⟩
  exact fun q hq => hinv.2.1 q hq

/-- C2 witness: with distinct creation ids, the scanned QR code's counter
(1) matches the one stored scan referencing it. -/
theorem C2_scan_count_invariant_witness :
    (⟨"1", "A", 1, true⟩ : QRCode) ∈ (runQROps Store.init distinctOps).qrCodes ∧
    (1 : Nat) =
      ((runQROps Store.init distinctOps).scans.filter
        (fun s => s.qr_code_id = "1")).length :=
  ⟨by decide,
    C2_scan_count_invariant distinctOps (by decide) ⟨"1", "A", 1, true⟩ (by decide)⟩

end QRPlatform
